import Mathlib

/-!
Verification of the batch image-compression scripts
`compress_script/compress.py` and `compress_script/compress_tinypng.py`.

The filesystem is modelled as a map from paths to optional byte strings.
The external services the scripts call (the PIL imaging library, the Tinify
API, `float`/`strptime`/`fromisoformat`, file timestamps) are modelled as
oracles passed in as parameters: the scripts only observe their
success-or-exception outcome and the produced bytes or values.  All the
control flow, size comparisons, path arithmetic and filters of the scripts
themselves are embedded directly from the source.
-/

set_option maxHeartbeats 1000000

/-- Byte strings are modelled as lists of byte values. -/
abbrev Bytes := List Nat

/-- The filesystem: a map from path to file contents; `none` means the path
does not exist. -/
abbrev FS := String → Option Bytes

/-- Python `s.endswith(suffix)` for a single suffix. -/
def strEndsWith (s suffix : String) : Bool := decide (suffix.data <:+ s.data)

/-- Python `s.startswith(pre)` for a single prefix string. -/
def strStartsWith (s pre : String) : Bool := decide (pre.data <+: s.data)

/-- Python `s.lower()` restricted to the ASCII case mapping, which is all the
scripts need for file extensions. -/
def strToLower (s : String) : String := ⟨s.data.map Char.toLower⟩

/-- Python `s.upper()` restricted to the ASCII case mapping. -/
def strToUpper (s : String) : String := ⟨s.data.map Char.toUpper⟩

/-- Python `os.path.join` for POSIX paths, covering the cases the scripts
use (a possibly slash-terminated directory joined with a relative or
absolute component). -/
def joinPath (a b : String) : String :=
  if strStartsWith b "/" then b
  else if a = "" then b
  else if strEndsWith a "/" then a ++ b
  else a ++ "/" ++ b

/-- Index of the last occurrence of a character in a list, as Python
`str.rfind`: `-1` when the character is absent. -/
def rfindChar (l : List Char) (c : Char) : Int :=
  match ((List.range l.length).filter (fun i => l.get? i == some c)).getLast? with
  | some i => (i : Int)
  | none => -1

/-- Python `os.path.splitext` for POSIX paths (CPython `genericpath._splitext`
with separator `/` and extension separator `.`): split at the last dot that
comes after the last slash, unless the basename up to that dot consists only
of dots. -/
def splitext (p : String) : String × String :=
  let l := p.data
  let sepIndex := rfindChar l '/'
  let dotIndex := rfindChar l '.'
  if sepIndex < dotIndex then
    if (List.range l.length).any (fun k =>
        decide (sepIndex < (k : Int)) && decide ((k : Int) < dotIndex) &&
        (l.get? k != some '.')) then
      (⟨l.take dotIndex.toNat⟩, ⟨l.drop dotIndex.toNat⟩)
    else (p, "")
  else (p, "")

/-- Python truthiness of an optional string: `None` and the empty string are
falsy. -/
def strTruthy : Option String → Bool
  | none => false
  | some s => !(s == "")

/-- Python truthiness of an optional numeric timestamp: `None` and `0` are
falsy. -/
def tsTruthy : Option Int → Bool
  | none => false
  | some t => !(t == 0)

namespace Compress

/-- The attributes of a decoded PIL image that `compress.py` consults. -/
structure Image where
  format : String
  mode : String
  bands : List String

/-- Outcome of the PIL `img.save` call on the temporary path: on success the
encoder wrote these bytes; on failure an exception was raised after writing
the given partial content (`none` when nothing was written yet). -/
inductive SaveOutcome where
  | ok (bytes : Bytes)
  | fail (written : Option Bytes)

/-- Which log line `compress_image` emits for the file. -/
inductive Log where
  | openError
  | skippedGif
  | compressed
  | keptOriginal
  | processError

/-- The function `compress_image` of `compress.py`.  `openRes` models
`Image.open(filepath)` (`none` means the call raised and the function
returns after logging); `save` models the `img.save` call on the temporary
path `filepath + ".tmp"`.  The three source branches (JPEG with optional
RGB conversion, PNG with or without an alpha band and quantization, and the
fallback branch) only choose encoder settings and transform in-memory pixel
data, so the bytes that reach the temporary file are the oracle's in every
branch.  After a successful save the function compares `os.path.getsize` of
the original and the temporary file and either moves the temporary file onto
the original (strictly smaller) or removes it; any exception inside the
`try` block (including a `getsize` failure when the original vanished) is
caught and the temporary file is removed when it exists. -/
def compress_image (openRes : Option Image) (save : SaveOutcome)
    (fs : FS) (filepath : String) : FS × Log :=
  match openRes with
  | none => (fs, .openError)
  | some img =>
    if strToUpper img.format = "GIF" then (fs, .skippedGif)
    else
      let temp_filepath := filepath ++ ".tmp"
      match save with
      | .fail _written =>
        -- the except branch removes the temporary file when it exists,
        -- so whatever was written there is gone afterwards
        (fun p => if p = temp_filepath then none else fs p, .processError)
      | .ok bytes =>
        match fs filepath with
        | none =>
          -- os.path.getsize(filepath) raises; the except branch removes
          -- the temporary file that the save just wrote
          (fun p => if p = temp_filepath then none else fs p, .processError)
        | some original =>
          if bytes.length < original.length then
            -- shutil.move(temp_filepath, filepath)
            (fun p => if p = filepath then some bytes
                      else if p = temp_filepath then none else fs p, .compressed)
          else
            -- os.remove(temp_filepath), the original stays
            (fun p => if p = temp_filepath then none else fs p, .keptOriginal)

/-- The extension filter of the loop in `main` of `compress.py`. -/
def supported_exts : List String := [".png", ".jpg", ".jpeg"]

/-- Python `filename.lower().endswith((".png", ".jpg", ".jpeg"))`. -/
def hasSupportedExt (filename : String) : Bool :=
  supported_exts.any (fun e => strEndsWith (strToLower filename) e)

/-- One iteration of the loop in `main` of `compress.py`: filter by
extension, read the original size (`continue` when `getsize` raises, which
in this model happens exactly when the path is absent), then call
`compress_image`.  Besides the filesystem the result carries the list of
paths `compress_image` was invoked on. -/
def mainStep (openOr : String → Option Image) (saveOr : String → SaveOutcome)
    (fs : FS) (filename : String) : FS × List String :=
  if hasSupportedExt filename then
    let filepath := joinPath "./" filename
    match fs filepath with
    | none => (fs, [])
    | some _ => ((compress_image (openOr filepath) (saveOr filepath) fs filepath).1, [filepath])
  else (fs, [])

/-- The loop of `main` of `compress.py` over the result of `os.listdir`. -/
def mainLoop (openOr : String → Option Image) (saveOr : String → SaveOutcome)
    (fs : FS) (files : List String) : FS × List String :=
  files.foldl (fun acc filename =>
    let r := mainStep openOr saveOr acc.1 filename
    (r.1, acc.2 ++ r.2)) (fs, [])

end Compress

namespace Tinypng

/-- The source-extension filter of `compress_tinypng.py`. -/
def SUPPORTED_FORMATS : List String := [".png", ".jpg", ".jpeg", ".webp", ".avif"]

/-- Python `file.lower().endswith(SUPPORTED_FORMATS)`. -/
def hasSupportedFormat (file : String) : Bool :=
  SUPPORTED_FORMATS.any (fun e => strEndsWith (strToLower file) e)

/-- The MIME-type-to-extension map of `compress_tinypng.py`, looked up with
`MIME_TO_EXT.get(convert_type, None)`. -/
def MIME_TO_EXT (mime : String) : Option String :=
  if mime = "image/png" then some "png"
  else if mime = "image/jpeg" then some "jpg"
  else if mime = "image/jpg" then some "jpg"
  else if mime = "image/webp" then some "webp"
  else if mime = "image/avif" then some "avif"
  else none

/-- Outcome of the Tinify API chain `tinify.from_file` / `.resize` /
`.convert` / `.to_buffer`: either the compressed bytes, or one of the
exceptions (`AccountError`, `ClientError`, `ServerError`, `ConnectionError`
or any other) which `compress_image` turns into a failure message.  All of
these calls happen before any local file is written. -/
abbrev ApiResult := Except String Bytes

/-- The function `compress_image` of `compress_tinypng.py`.  Returns the new
filesystem together with the success flag of the `(success, message)` pair.
The resize options only influence the API result, which the `api` argument
already fixes, so they do not appear separately.  `ensure_dir` only creates
directories, which the path-to-contents filesystem model does not track, and
the local write of the compressed bytes is modelled as atomic. -/
def compress_image (api : ApiResult) (fs : FS) (input_path : String)
    (output_path0 : Option String) (convert_type : Option String) : FS × Bool :=
  match fs input_path with
  | none => (fs, false)     -- os.path.getsize(input_path) raised OSError
  | some _original =>
    match api with
    | .error _ => (fs, false)
    | .ok compressed_bytes =>
      let output_path :=
        if strTruthy output_path0 then
          -- adjust the given output path's extension after a convert
          (if strTruthy convert_type then
            match MIME_TO_EXT (convert_type.getD "") with
            | some ext => (splitext (output_path0.getD "")).1 ++ "." ++ ext
            | none => output_path0.getD ""
          else output_path0.getD "")
        else
          -- overwrite the original, changing the suffix after a convert
          (if strTruthy convert_type then
            match MIME_TO_EXT (convert_type.getD "") with
            | some ext => (splitext input_path).1 ++ "." ++ ext
            | none => input_path
          else input_path)
      (fun p => if p = output_path then some compressed_bytes else fs p, true)

/-- The oracles `compress_folder` and `main` consult: the Tinify API outcome
per input path, the two file-time readers (`none` models a raised
exception), and `os.path.relpath`. -/
structure Env where
  api : String → ApiResult
  mtime : String → Option Int
  ctime : String → Option Int
  relpath : String → String → String

/-- The running state of the loop in `compress_folder`: the filesystem, the
four counters, and the list of input paths `compress_image` was invoked on. -/
structure FolderState where
  fs : FS
  total : Nat
  skipped : Nat
  success : Nat
  fail : Nat
  invoked : List String

/-- The body of the per-file work of `compress_folder` once the extension
and time filters let the file through: bump `total_files`, choose the output
path (mirroring the relative directory under the output folder when one is
given), call `compress_image` and bump the success or failure counter. -/
def procBody (env : Env) (folder_path : String) (output_folder : Option String)
    (convert_type : Option String) (st : FolderState) (root file : String) : FolderState :=
  let input_path := joinPath root file
  let output_path0 :=
    if strTruthy output_folder then
      some (joinPath (joinPath (output_folder.getD "") (env.relpath root folder_path)) file)
    else none
  let r := compress_image (env.api input_path) st.fs input_path output_path0 convert_type
  if r.2 then
    { st with fs := r.1, total := st.total + 1, success := st.success + 1,
              invoked := st.invoked ++ [input_path] }
  else
    { st with fs := r.1, total := st.total + 1, fail := st.fail + 1,
              invoked := st.invoked ++ [input_path] }

/-- One file of the walk in `compress_folder`: skip unsupported extensions;
when `since_ts` is truthy read the selected time field (`ctime` when
`time_field == "ctime"`, `mtime` otherwise), skipping and counting the file
when the read raises or the time is strictly below the threshold; otherwise
run `procBody`. -/
def procFile (env : Env) (folder_path : String) (output_folder : Option String)
    (convert_type : Option String) (since_ts : Option Int) (time_field : String)
    (st : FolderState) (root file : String) : FolderState :=
  if hasSupportedFormat file then
    let input_path := joinPath root file
    if tsTruthy since_ts then
      match (if time_field = "ctime" then env.ctime input_path else env.mtime input_path) with
      | none => { st with skipped := st.skipped + 1 }
      | some file_ts =>
        if file_ts < since_ts.getD 0 then { st with skipped := st.skipped + 1 }
        else procBody env folder_path output_folder convert_type st root file
    else procBody env folder_path output_folder convert_type st root file
  else st

/-- The function `compress_folder` of `compress_tinypng.py`.  The `walk`
argument is the list of `(root, files)` pairs that `os.walk(folder_path)`
yields; the `break` after the first root when `recursive` is false keeps
only the first pair.  The `os.path.abspath` / `os.path.isdir` guard at the
top concerns only the textual form of `folder_path` and the existence of the
directory whose listing `walk` already fixes. -/
def compress_folder (env : Env) (fs : FS) (walk : List (String × List String))
    (folder_path : String) (output_folder : Option String)
    (convert_type : Option String) (since_ts : Option Int)
    (time_field : String) (recursive : Bool) : FolderState :=
  let walkUsed := if recursive then walk else walk.take 1
  walkUsed.foldl
    (fun st rootFiles =>
      rootFiles.2.foldl
        (fun st file =>
          procFile env folder_path output_folder convert_type since_ts time_field
            st rootFiles.1 file)
        st)
    ⟨fs, 0, 0, 0, 0, []⟩

/-- Result of `parse_after_arg`: `None` for a falsy argument, a POSIX
timestamp, or the `ValueError` the function raises. -/
inductive AfterResult where
  | noneResult
  | ok (ts : Int)
  | valueError

/-- The `strptime` formats tried by `parse_after_arg`, in order. -/
def fmts : List String := ["%Y-%m-%d", "%Y-%m-%d %H:%M:%S", "%Y-%m-%dT%H:%M:%S"]

/-- The library parsers `parse_after_arg` delegates to.  Each returns the
resulting POSIX timestamp when the call chain succeeds and `none` when any
part of it raises: `floatParse` is `float(s)`, `strptime` is
`datetime.datetime.strptime(s, fmt)` followed by `.timestamp()`, and
`fromisoformat` is `datetime.datetime.fromisoformat(s)` followed by
`.timestamp()`.  Timestamps are abstract integers since their values depend
on the local timezone. -/
structure DateOracles where
  floatParse : String → Option Int
  strptime : String → String → Option Int
  fromisoformat : String → Option Int

/-- First defined value in a list of optional timestamps: the loop over
`fmts` returns at the first format whose parse succeeds. -/
def firstSome : List (Option Int) → Option Int
  | [] => none
  | some t :: _ => some t
  | none :: rest => firstSome rest

/-- The function `parse_after_arg` of `compress_tinypng.py`: falsy input
returns `None`; then `float(after_str)` is tried, then the three `strptime`
formats in order, then `fromisoformat`; when everything raises the function
raises `ValueError`. -/
def parse_after_arg (o : DateOracles) (after_str : Option String) : AfterResult :=
  if !(strTruthy after_str) then .noneResult
  else
    let s := after_str.getD ""
    match o.floatParse s with
    | some t => .ok t
    | none =>
      match firstSome (fmts.map (fun fmt => o.strptime s fmt)) with
      | some t => .ok t
      | none =>
        match o.fromisoformat s with
        | some t => .ok t
        | none => .valueError

/-- Resolution of the API key in `main`: `args.key or
os.environ.get("TINIFY_API_KEY")`, with Python `or` semantics, so an empty
`--key` falls through to the environment value. -/
def resolve_api_key (key : Option String) (env_key : Option String) : Option String :=
  if strTruthy key then key else env_key

/-- How a run of `main` of `compress_tinypng.py` ends. -/
inductive MainOutcome where
  | keyError
  | resizeError
  | afterError
  | singleSkippedOld
  | singleTimeError
  | ranSingle (success : Bool)
  | ranFolder

/-- What a run of `main` produces: the final filesystem, the input paths
`compress_image` was invoked on, and how the run ended. -/
structure MainResult where
  fs : FS
  invoked : List String
  outcome : MainOutcome

/-- The parsed command-line arguments of `compress_tinypng.py`. -/
structure Args where
  input : String
  output : Option String
  resize : Option String
  convert : Option String
  key : Option String
  noRecursive : Bool
  after : Option String
  timeField : String

/-- The function `main` of `compress_tinypng.py`: resolve the API key (error
and return when falsy), parse the resize argument (`parse_resize_arg` raises
out of `main` when `resizeOk` is false), parse `--after` (print and return
on `ValueError`), then either the single-file path (with its own truthiness
time filter, reading `mtime` when `time_field == "mtime"` and `ctime`
otherwise) or `compress_folder`.  `isFile` models `os.path.isfile`. -/
def main (env_key : Option String) (isFile : String → Bool) (o : DateOracles)
    (resizeOk : String → Bool) (env : Env) (fs : FS)
    (walk : List (String × List String)) (args : Args) : MainResult :=
  let api_key := resolve_api_key args.key env_key
  if !(strTruthy api_key) then ⟨fs, [], .keyError⟩
  else if strTruthy args.resize && !(resizeOk (args.resize.getD "")) then
    ⟨fs, [], .resizeError⟩
  else
    match (if strTruthy args.after then parse_after_arg o args.after
           else AfterResult.noneResult) with
    | .valueError => ⟨fs, [], .afterError⟩
    | parsed =>
      let since_ts : Option Int := match parsed with | .ok t => some t | _ => none
      if isFile args.input then
        if tsTruthy since_ts then
          match (if args.timeField = "mtime" then env.mtime args.input
                 else env.ctime args.input) with
          | none => ⟨fs, [], .singleTimeError⟩
          | some file_ts =>
            if file_ts < since_ts.getD 0 then ⟨fs, [], .singleSkippedOld⟩
            else
              let r := compress_image (env.api args.input) fs args.input args.output args.convert
              ⟨r.1, [args.input], .ranSingle r.2⟩
        else
          let r := compress_image (env.api args.input) fs args.input args.output args.convert
          ⟨r.1, [args.input], .ranSingle r.2⟩
      else
        let st := compress_folder env fs walk args.input args.output args.convert
          since_ts args.timeField (!args.noRecursive)
        ⟨st.fs, st.invoked, .ranFolder⟩

end Tinypng

/-! Helper lemmas: basic string facts and branch characterizations. -/

/-- A path never equals its own temporary-file name. -/
theorem ne_append_tmp (p : String) : ¬ p = p ++ ".tmp" := by
  intro h
  have h2 := congrArg String.length h
  rw [String.length_append] at h2
  have h3 : (".tmp" : String).length = 4 := by decide
  omega

/-- Two suffixes of the same list with equal lengths are equal. -/
theorem suffix_eq_of_length {l a b : List Char} (ha : a <:+ l) (hb : b <:+ l)
    (h : a.length = b.length) : a = b := by
  obtain ⟨t, ht⟩ := ha
  obtain ⟨u, hu⟩ := hb
  have he : t ++ a = u ++ b := by rw [ht, hu]
  have hl : t.length = u.length := by
    have := congrArg List.length he
    simp only [List.length_append] at this
    omega
  exact (List.append_inj he hl).2

/-- A filename ending in ".gif" (case-insensitively) passes none of the five
suffix tests of the Tinify script's extension filter. -/
theorem gif_not_supported {name : String}
    (h : strEndsWith (strToLower name) ".gif" = true) :
    Tinypng.hasSupportedFormat name = false := by
  rw [strEndsWith, decide_eq_true_eq] at h
  apply Bool.eq_false_iff.mpr
  intro hT
  rw [Tinypng.hasSupportedFormat, List.any_eq_true] at hT
  obtain ⟨e, he, hce⟩ := hT
  rw [strEndsWith, decide_eq_true_eq] at hce
  have he' : e = ".png" ∨ e = ".jpg" ∨ e = ".jpeg" ∨ e = ".webp" ∨ e = ".avif" := by
    simpa [Tinypng.SUPPORTED_FORMATS] using he
  rcases he' with rfl | rfl | rfl | rfl | rfl
  · exact absurd (suffix_eq_of_length hce h (by decide)) (by decide)
  · exact absurd (suffix_eq_of_length hce h (by decide)) (by decide)
  · have h4 : ("jpeg" : String).data <:+ (".jpeg" : String).data := by decide
    exact absurd (suffix_eq_of_length (h4.trans hce) h (by decide)) (by decide)
  · have h4 : ("webp" : String).data <:+ (".webp" : String).data := by decide
    exact absurd (suffix_eq_of_length (h4.trans hce) h (by decide)) (by decide)
  · have h4 : ("avif" : String).data <:+ (".avif" : String).data := by decide
    exact absurd (suffix_eq_of_length (h4.trans hce) h (by decide)) (by decide)

/-- Branch characterization: a failed `Image.open` leaves everything alone. -/
theorem local_ci_open_err (save : Compress.SaveOutcome) (fs : FS) (p : String) :
    Compress.compress_image none save fs p = (fs, Compress.Log.openError) := rfl

/-- Branch characterization: a GIF is skipped, leaving everything alone. -/
theorem local_ci_gif (img : Compress.Image) (hg : strToUpper img.format = "GIF")
    (save : Compress.SaveOutcome) (fs : FS) (p : String) :
    Compress.compress_image (some img) save fs p = (fs, Compress.Log.skippedGif) := by
  rw [Compress.compress_image]
  simp [hg]

/-- Branch characterization: when the save raises, the handler leaves the
filesystem alone except that the temporary path ends up absent. -/
theorem local_ci_fail (img : Compress.Image) (hg : ¬ strToUpper img.format = "GIF")
    (w : Option Bytes) (fs : FS) (p : String) :
    Compress.compress_image (some img) (Compress.SaveOutcome.fail w) fs p =
      (fun q => if q = p ++ ".tmp" then none else fs q, Compress.Log.processError) := by
  rw [Compress.compress_image]
  simp [hg]

/-- Branch characterization: when the save succeeds but the original is gone,
`getsize` raises and the handler removes the temporary file. -/
theorem local_ci_ok_absent (img : Compress.Image) (hg : ¬ strToUpper img.format = "GIF")
    (bytes : Bytes) (fs : FS) (p : String) (h : fs p = none) :
    Compress.compress_image (some img) (Compress.SaveOutcome.ok bytes) fs p =
      (fun q => if q = p ++ ".tmp" then none else fs q, Compress.Log.processError) := by
  rw [Compress.compress_image]
  simp [hg, h]

/-- Branch characterization: a strictly smaller result is moved over the
original and the temporary path ends up absent. -/
theorem local_ci_ok_smaller (img : Compress.Image) (hg : ¬ strToUpper img.format = "GIF")
    (bytes orig : Bytes) (fs : FS) (p : String) (ho : fs p = some orig)
    (hlt : bytes.length < orig.length) :
    Compress.compress_image (some img) (Compress.SaveOutcome.ok bytes) fs p =
      (fun q => if q = p then some bytes else if q = p ++ ".tmp" then none else fs q,
        Compress.Log.compressed) := by
  rw [Compress.compress_image]
  simp [hg, ho, hlt]

/-- Branch characterization: a result that is not strictly smaller is
discarded and the original is kept. -/
theorem local_ci_ok_keep (img : Compress.Image) (hg : ¬ strToUpper img.format = "GIF")
    (bytes orig : Bytes) (fs : FS) (p : String) (ho : fs p = some orig)
    (hlt : ¬ bytes.length < orig.length) :
    Compress.compress_image (some img) (Compress.SaveOutcome.ok bytes) fs p =
      (fun q => if q = p ++ ".tmp" then none else fs q, Compress.Log.keptOriginal) := by
  rw [Compress.compress_image]
  simp [hg, ho, hlt]

/-- Branch characterization: any exception from the Tinify call chain (and
likewise a failed `getsize`) leaves the filesystem untouched and reports
failure. -/
theorem tin_ci_err (msg : String) (fs : FS) (inp : String)
    (outp : Option String) (ct : Option String) :
    Tinypng.compress_image (Except.error msg) fs inp outp ct = (fs, false) := by
  rw [Tinypng.compress_image]
  cases h : fs inp <;> simp

/-- Branch characterization: a successful API call with no output folder and
no conversion writes the compressed bytes over the original input path. -/
theorem tin_ci_ok_plain (bytes orig : Bytes) (fs : FS) (inp : String)
    (ho : fs inp = some orig) :
    Tinypng.compress_image (Except.ok bytes) fs inp none none =
      (fun p => if p = inp then some bytes else fs p, true) := by
  rw [Tinypng.compress_image]
  simp [ho, strTruthy]

/-- Branch characterization: with no output folder and a conversion type in
the MIME map, the write goes to the input path with its extension replaced
by the mapped one. -/
theorem tin_ci_ok_convert_mapped (bytes orig : Bytes) (fs : FS) (inp ct e : String)
    (ho : fs inp = some orig) (hct : ¬ ct = "") (hm : Tinypng.MIME_TO_EXT ct = some e) :
    Tinypng.compress_image (Except.ok bytes) fs inp none (some ct) =
      (fun p => if p = (splitext inp).1 ++ "." ++ e then some bytes else fs p, true) := by
  rw [Tinypng.compress_image]
  simp [ho, strTruthy, hct, hm]

/-- Branch characterization: with no output folder and a conversion type
outside the MIME map, the write still goes to the unmodified input path. -/
theorem tin_ci_ok_convert_unmapped (bytes orig : Bytes) (fs : FS) (inp ct : String)
    (ho : fs inp = some orig) (hct : ¬ ct = "") (hm : Tinypng.MIME_TO_EXT ct = none) :
    Tinypng.compress_image (Except.ok bytes) fs inp none (some ct) =
      (fun p => if p = inp then some bytes else fs p, true) := by
  rw [Tinypng.compress_image]
  simp [ho, strTruthy, hct, hm]

/-- Branch characterization: with an output path and a conversion type in
the MIME map, the write goes to the output path with its extension replaced
by the mapped one. -/
theorem tin_ci_ok_out_mapped (bytes orig : Bytes) (fs : FS) (inp op ct e : String)
    (ho : fs inp = some orig) (hop : ¬ op = "") (hct : ¬ ct = "")
    (hm : Tinypng.MIME_TO_EXT ct = some e) :
    Tinypng.compress_image (Except.ok bytes) fs inp (some op) (some ct) =
      (fun p => if p = (splitext op).1 ++ "." ++ e then some bytes else fs p, true) := by
  rw [Tinypng.compress_image]
  simp [ho, strTruthy, hop, hct, hm]

/-- Branch characterization: with an output path and a conversion type
outside the MIME map, the write goes to the unmodified output path. -/
theorem tin_ci_ok_out_unmapped (bytes orig : Bytes) (fs : FS) (inp op ct : String)
    (ho : fs inp = some orig) (hop : ¬ op = "") (hct : ¬ ct = "")
    (hm : Tinypng.MIME_TO_EXT ct = none) :
    Tinypng.compress_image (Except.ok bytes) fs inp (some op) (some ct) =
      (fun p => if p = op then some bytes else fs p, true) := by
  rw [Tinypng.compress_image]
  simp [ho, strTruthy, hop, hct, hm]

/-- The loop body always records the attempted input path, whether the
compression succeeded or failed. -/
theorem procBody_invoked (env : Tinypng.Env) (folder : String) (outF : Option String)
    (ct : Option String) (st : Tinypng.FolderState) (root file : String) :
    (Tinypng.procBody env folder outF ct st root file).invoked =
      st.invoked ++ [joinPath root file] := by
  rw [Tinypng.procBody]
  split <;> split <;> rfl

/-- Which files the walk attempts does not depend on the filesystem, the
API outcomes or the output-path arithmetic: only the name filter and the
time oracles decide it.  In particular a failure on one file never stops
the loop. -/
theorem procFile_invoked_congr (env1 env2 : Tinypng.Env)
    (hm : env1.mtime = env2.mtime) (hc : env1.ctime = env2.ctime)
    (folder1 folder2 : String) (outF1 outF2 : Option String)
    (ct1 ct2 : Option String) (since : Option Int) (tf : String)
    (st1 st2 : Tinypng.FolderState) (h : st1.invoked = st2.invoked)
    (root file : String) :
    (Tinypng.procFile env1 folder1 outF1 ct1 since tf st1 root file).invoked =
    (Tinypng.procFile env2 folder2 outF2 ct2 since tf st2 root file).invoked := by
  rw [Tinypng.procFile, Tinypng.procFile]
  by_cases hs : Tinypng.hasSupportedFormat file = true
  case neg => rw [if_neg hs, if_neg hs]; exact h
  case pos =>
    rw [if_pos hs, if_pos hs]
    by_cases ht : tsTruthy since = true
    case neg =>
      rw [if_neg ht, if_neg ht, procBody_invoked, procBody_invoked, h]
    case pos =>
      rw [if_pos ht, if_pos ht, hm, hc]
      cases hread : (if tf = "ctime" then env2.ctime (joinPath root file)
                     else env2.mtime (joinPath root file)) with
      | none => exact h
      | some t =>
        dsimp only
        by_cases hlt : t < since.getD 0
        · rw [if_pos hlt, if_pos hlt]; exact h
        · rw [if_neg hlt, if_neg hlt, procBody_invoked, procBody_invoked, h]

/-- Lifting of `procFile_invoked_congr` to the inner loop over one root's
files. -/
theorem foldFiles_invoked_congr (env1 env2 : Tinypng.Env)
    (hm : env1.mtime = env2.mtime) (hc : env1.ctime = env2.ctime)
    (folder1 folder2 : String) (outF1 outF2 : Option String)
    (ct1 ct2 : Option String) (since : Option Int) (tf : String) (root : String) :
    ∀ (files : List String) (st1 st2 : Tinypng.FolderState),
      st1.invoked = st2.invoked →
      (files.foldl (fun st f => Tinypng.procFile env1 folder1 outF1 ct1 since tf st root f) st1).invoked =
      (files.foldl (fun st f => Tinypng.procFile env2 folder2 outF2 ct2 since tf st root f) st2).invoked
  | [], _, _, h => h
  | f :: rest, st1, st2, h =>
    foldFiles_invoked_congr env1 env2 hm hc folder1 folder2 outF1 outF2 ct1 ct2
      since tf root rest _ _
      (procFile_invoked_congr env1 env2 hm hc folder1 folder2 outF1 outF2 ct1 ct2
        since tf st1 st2 h root f)

/-- Lifting of the invariance to the outer loop over the walk. -/
theorem foldWalk_invoked_congr (env1 env2 : Tinypng.Env)
    (hm : env1.mtime = env2.mtime) (hc : env1.ctime = env2.ctime)
    (folder1 folder2 : String) (outF1 outF2 : Option String)
    (ct1 ct2 : Option String) (since : Option Int) (tf : String) :
    ∀ (walk : List (String × List String)) (st1 st2 : Tinypng.FolderState),
      st1.invoked = st2.invoked →
      (walk.foldl (fun st rootFiles => rootFiles.2.foldl
        (fun st f => Tinypng.procFile env1 folder1 outF1 ct1 since tf st rootFiles.1 f) st) st1).invoked =
      (walk.foldl (fun st rootFiles => rootFiles.2.foldl
        (fun st f => Tinypng.procFile env2 folder2 outF2 ct2 since tf st rootFiles.1 f) st) st2).invoked
  | [], _, _, h => h
  | rf :: rest, st1, st2, h =>
    foldWalk_invoked_congr env1 env2 hm hc folder1 folder2 outF1 outF2 ct1 ct2
      since tf rest _ _
      (foldFiles_invoked_congr env1 env2 hm hc folder1 folder2 outF1 outF2 ct1 ct2
        since tf rf.1 rf.2 st1 st2 h)

/-- The list of inputs `compress_folder` hands to `compress_image` depends
only on the walk, the name filter and the time filter: not on the
filesystem, the API results (successes or exceptions) or the output-path
arithmetic. -/
theorem compress_folder_invoked_congr (env1 env2 : Tinypng.Env)
    (hm : env1.mtime = env2.mtime) (hc : env1.ctime = env2.ctime)
    (fs1 fs2 : FS) (walk : List (String × List String))
    (folder1 folder2 : String) (outF1 outF2 : Option String)
    (ct1 ct2 : Option String) (since : Option Int) (tf : String) (rec : Bool) :
    (Tinypng.compress_folder env1 fs1 walk folder1 outF1 ct1 since tf rec).invoked =
    (Tinypng.compress_folder env2 fs2 walk folder2 outF2 ct2 since tf rec).invoked := by
  rw [Tinypng.compress_folder, Tinypng.compress_folder]
  exact foldWalk_invoked_congr env1 env2 hm hc folder1 folder2 outF1 outF2 ct1 ct2
    since tf (if rec then walk else walk.take 1) _ _ rfl

/-- A threshold of zero fails the truthiness test, so the per-file handler
behaves exactly as with no threshold at all. -/
theorem procFile_since_zero (env : Tinypng.Env) (folder : String)
    (outF : Option String) (ct : Option String) (tf : String)
    (st : Tinypng.FolderState) (root file : String) :
    Tinypng.procFile env folder outF ct (some 0) tf st root file =
    Tinypng.procFile env folder outF ct none tf st root file := by
  rw [Tinypng.procFile, Tinypng.procFile]
  have h0 : tsTruthy (some 0) = false := by decide
  have hn : tsTruthy none = false := by decide
  rw [h0, hn]
  simp only [Option.getD_some, Option.getD_none]

/-- A threshold of zero disables the time filter for the whole walk. -/
theorem compress_folder_since_zero (env : Tinypng.Env) (fs : FS)
    (walk : List (String × List String)) (folder : String)
    (outF : Option String) (ct : Option String) (tf : String) (rec : Bool) :
    Tinypng.compress_folder env fs walk folder outF ct (some 0) tf rec =
    Tinypng.compress_folder env fs walk folder outF ct none tf rec := by
  rw [Tinypng.compress_folder, Tinypng.compress_folder]
  apply List.foldl_ext
  intro st rootFiles _
  apply List.foldl_ext
  intro st2 file _
  exact procFile_since_zero env folder outF ct tf st2 rootFiles.1 file

/-! Claim C1. -/

/-- C1 counterexample: in the Tinify script's `compress_image` the original
file "a.png" of size 2 is overwritten with the 3-byte compressed result even
though the compressed result is larger, because the write at lines 130-131
is unconditional — there is no size comparison in this script. -/
theorem c1_counterexample :
    (Tinypng.compress_image (Except.ok [0, 0, 0])
        (fun p => if p = "a.png" then some ([0, 0] : Bytes) else none)
        "a.png" none none).1 "a.png" = some [0, 0, 0] ∧
    ¬ ([0, 0, 0] : Bytes).length < ([0, 0] : Bytes).length := by
  constructor
  · decide
  · decide

/-- C1 (amended): in the local script `compress_image` writes a compressed
output over the original only when the result is strictly smaller — whenever
the result is not smaller the original contents are kept, and any change to
the original path comes from a successful save of strictly smaller bytes.
The Tinify script's `compress_image`, by contrast, writes the API output
unconditionally, so with no output folder and no conversion the original
path receives the compressed bytes whatever their size. -/
theorem c1_overwrite_only_when_smaller :
    (∀ (openRes : Option Compress.Image) (save : Compress.SaveOutcome) (fs : FS)
        (p : String) (bytes orig : Bytes),
        save = Compress.SaveOutcome.ok bytes → fs p = some orig →
        ¬ bytes.length < orig.length →
        (Compress.compress_image openRes save fs p).1 p = some orig) ∧
    (∀ (openRes : Option Compress.Image) (save : Compress.SaveOutcome) (fs : FS)
        (p : String),
        (Compress.compress_image openRes save fs p).1 p ≠ fs p →
        ∃ bytes orig, save = Compress.SaveOutcome.ok bytes ∧ fs p = some orig ∧
          bytes.length < orig.length ∧
          (Compress.compress_image openRes save fs p).1 p = some bytes) ∧
    (∀ (bytes orig : Bytes) (fs : FS) (p : String), fs p = some orig →
        (Tinypng.compress_image (Except.ok bytes) fs p none none).1 p = some bytes) := by
  refine ⟨?_, ?_, ?_⟩
  · intro openRes save fs p bytes orig hs ho hlt
    subst hs
    cases openRes with
    | none => rw [local_ci_open_err]; exact ho
    | some img =>
      by_cases hg : strToUpper img.format = "GIF"
      · rw [local_ci_gif img hg]; exact ho
      · rw [local_ci_ok_keep img hg bytes orig fs p ho hlt]
        simp only [if_neg (ne_append_tmp p)]
        exact ho
  · intro openRes save fs p hne
    cases openRes with
    | none => rw [local_ci_open_err] at hne; exact absurd rfl hne
    | some img =>
      by_cases hg : strToUpper img.format = "GIF"
      · rw [local_ci_gif img hg] at hne; exact absurd rfl hne
      · cases save with
        | fail w =>
          rw [local_ci_fail img hg w] at hne
          simp only [if_neg (ne_append_tmp p)] at hne
          exact absurd rfl hne
        | ok bytes =>
          cases hfs : fs p with
          | none =>
            rw [local_ci_ok_absent img hg bytes fs p hfs] at hne
            simp only [if_neg (ne_append_tmp p)] at hne
            exact absurd rfl hne
          | some orig =>
            by_cases hlt : bytes.length < orig.length
            · refine ⟨bytes, orig, rfl, rfl, hlt, ?_⟩
              rw [local_ci_ok_smaller img hg bytes orig fs p hfs hlt]
              simp
            · rw [local_ci_ok_keep img hg bytes orig fs p hfs hlt] at hne
              simp only [if_neg (ne_append_tmp p)] at hne
              exact absurd rfl hne
  · intro bytes orig fs p ho
    rw [tin_ci_ok_plain bytes orig fs p ho]
    simp

/-- C1 witness: with a 2-byte original and a 3-byte compressed result the
local script keeps the original bytes. -/
theorem c1_witness :
    (Compress.compress_image (some ⟨"PNG", "RGB", []⟩)
        (Compress.SaveOutcome.ok [0, 0, 0])
        (fun q => if q = "b.png" then some ([0, 0] : Bytes) else none)
        "b.png").1 "b.png" = some [0, 0] :=
  c1_overwrite_only_when_smaller.1 (some ⟨"PNG", "RGB", []⟩)
    (Compress.SaveOutcome.ok [0, 0, 0])
    (fun q => if q = "b.png" then some ([0, 0] : Bytes) else none)
    "b.png" [0, 0, 0] [0, 0] rfl (by decide) (by decide)

/-! Claim C2. -/

/-- C2: exceptions are caught per file.  In the local script a failed save
leaves the original path's contents unchanged (only the temporary file is
cleaned up) and logs an error; in the Tinify script any API exception leaves
the whole filesystem unchanged and reports failure; and the set of files the
folder loop attempts does not depend on the filesystem or on which API calls
fail, so a failure never stops the loop before the remaining files. -/
theorem c2_errors_leave_original_and_continue :
    (∀ (img : Compress.Image) (w : Option Bytes) (fs : FS) (p : String),
        ¬ strToUpper img.format = "GIF" →
        (Compress.compress_image (some img) (Compress.SaveOutcome.fail w) fs p).1 p = fs p ∧
        (Compress.compress_image (some img) (Compress.SaveOutcome.fail w) fs p).2 =
          Compress.Log.processError) ∧
    (∀ (msg : String) (fs : FS) (inp : String) (outp ct : Option String),
        Tinypng.compress_image (Except.error msg) fs inp outp ct = (fs, false)) ∧
    (∀ (env1 env2 : Tinypng.Env), env1.mtime = env2.mtime → env1.ctime = env2.ctime →
      ∀ (fs1 fs2 : FS) (walk : List (String × List String)) (folder : String)
        (outF : Option String) (ct : Option String) (since : Option Int)
        (tf : String) (rec : Bool),
        (Tinypng.compress_folder env1 fs1 walk folder outF ct since tf rec).invoked =
        (Tinypng.compress_folder env2 fs2 walk folder outF ct since tf rec).invoked) := by
  refine ⟨?_, ?_, ?_⟩
  · intro img w fs p hg
    rw [local_ci_fail img hg w]
    exact ⟨by simp only [if_neg (ne_append_tmp p)], rfl⟩
  · intro msg fs inp outp ct
    exact tin_ci_err msg fs inp outp ct
  · intro env1 env2 hm hc fs1 fs2 walk folder outF ct since tf rec
    exact compress_folder_invoked_congr env1 env2 hm hc fs1 fs2 walk folder folder
      outF outF ct ct since tf rec

/-- C2 witness: a failed save on "c.jpg" leaves its 2-byte original in
place. -/
theorem c2_witness :
    (Compress.compress_image (some ⟨"JPEG", "RGB", []⟩)
        (Compress.SaveOutcome.fail (some [1]))
        (fun q => if q = "c.jpg" then some ([5, 5] : Bytes) else none)
        "c.jpg").1 "c.jpg" = some [5, 5] := by
  have h := (c2_errors_leave_original_and_continue.1 ⟨"JPEG", "RGB", []⟩ (some [1])
    (fun q => if q = "c.jpg" then some ([5, 5] : Bytes) else none) "c.jpg" (by decide)).1
  rw [h]
  decide

/-! Claim C3. -/

/-- C3 counterexample: the single-file path of the Tinify script's `main`
applies no extension filter, so `--input x.gif` does invoke `compress_image`
on the .gif file — and here even overwrites it with the API output. -/
theorem c3_counterexample :
    (Tinypng.main (some "K") (fun _ => true)
        ⟨fun _ => none, fun _ _ => none, fun _ => none⟩ (fun _ => true)
        ⟨fun _ => Except.ok [9], fun _ => some 0, fun _ => some 0, fun _ _ => ""⟩
        (fun p => if p = "x.gif" then some ([0, 0] : Bytes) else none) []
        ⟨"x.gif", none, none, none, some "K", false, none, "mtime"⟩).invoked = ["x.gif"] ∧
    (Tinypng.main (some "K") (fun _ => true)
        ⟨fun _ => none, fun _ _ => none, fun _ => none⟩ (fun _ => true)
        ⟨fun _ => Except.ok [9], fun _ => some 0, fun _ => some 0, fun _ _ => ""⟩
        (fun p => if p = "x.gif" then some ([0, 0] : Bytes) else none) []
        ⟨"x.gif", none, none, none, some "K", false, none, "mtime"⟩).fs "x.gif" = some [9] := by
  constructor
  · decide
  · decide

/-- C3 (amended): the local script's `compress_image` returns without
touching the filesystem whenever the decoded image format is GIF; in the
Tinify script the per-file handler of the directory walk leaves the state
untouched for any filename ending (case-insensitively) in ".gif", since
".gif" is not in SUPPORTED_FORMATS.  The single-file path of `main`,
however, applies no extension filter, so only the directory walk never
compresses .gif files. -/
theorem c3_gif_skipped :
    (∀ (img : Compress.Image) (save : Compress.SaveOutcome) (fs : FS) (p : String),
        strToUpper img.format = "GIF" →
        Compress.compress_image (some img) save fs p = (fs, Compress.Log.skippedGif)) ∧
    (∀ (env : Tinypng.Env) (folder : String) (outF ct : Option String)
        (since : Option Int) (tf : String) (st : Tinypng.FolderState) (root name : String),
        strEndsWith (strToLower name) ".gif" = true →
        Tinypng.procFile env folder outF ct since tf st root name = st) := by
  constructor
  · intro img save fs p hg
    exact local_ci_gif img hg save fs p
  · intro env folder outF ct since tf st root name h
    have hf := gif_not_supported h
    rw [Tinypng.procFile, hf]
    rfl

/-- C3 witness: a GIF-format image is skipped by the local script, and a
".GIF"-named file is left alone by the Tinify folder walk. -/
theorem c3_witness :
    Compress.compress_image (some ⟨"GIF", "P", []⟩) (Compress.SaveOutcome.ok [1])
      (fun _ => none) "g.gif" = ((fun _ => none : FS), Compress.Log.skippedGif) ∧
    Tinypng.procFile ⟨fun _ => Except.ok [1], fun _ => some 5, fun _ => some 5, fun _ _ => ""⟩
      "r" none none none "mtime" ⟨fun _ => none, 0, 0, 0, 0, []⟩ "r" "anim.GIF"
      = ⟨fun _ => none, 0, 0, 0, 0, []⟩ :=
  ⟨c3_gif_skipped.1 ⟨"GIF", "P", []⟩ (Compress.SaveOutcome.ok [1]) (fun _ => none)
      "g.gif" (by decide),
   c3_gif_skipped.2 ⟨fun _ => Except.ok [1], fun _ => some 5, fun _ => some 5, fun _ _ => ""⟩
      "r" none none none "mtime" ⟨fun _ => none, 0, 0, 0, 0, []⟩ "r" "anim.GIF" (by decide)⟩

/-! Claim C4. -/

/-- C4: a directory entry whose lowercased name ends in none of the
supported extensions is never handed to the per-file compression function
and the state is left untouched, in both scripts. -/
theorem c4_unsupported_ignored :
    (∀ (openOr : String → Option Compress.Image) (saveOr : String → Compress.SaveOutcome)
        (fs : FS) (filename : String),
        Compress.hasSupportedExt filename = false →
        Compress.mainStep openOr saveOr fs filename = (fs, [])) ∧
    (∀ (env : Tinypng.Env) (folder : String) (outF ct : Option String)
        (since : Option Int) (tf : String) (st : Tinypng.FolderState) (root file : String),
        Tinypng.hasSupportedFormat file = false →
        Tinypng.procFile env folder outF ct since tf st root file = st) := by
  constructor
  · intro openOr saveOr fs filename h
    rw [Compress.mainStep, h]
    rfl
  · intro env folder outF ct since tf st root file h
    rw [Tinypng.procFile, h]
    rfl

/-- C4 witness: "notes.txt" is ignored by both loops. -/
theorem c4_witness :
    Compress.mainStep (fun _ => none) (fun _ => Compress.SaveOutcome.ok [1])
      (fun _ => some [1]) "notes.txt" = ((fun _ => some [1] : FS), []) ∧
    Tinypng.procFile ⟨fun _ => Except.ok [1], fun _ => some 5, fun _ => some 5, fun _ _ => ""⟩
      "r" none none none "mtime" ⟨fun _ => none, 0, 0, 0, 0, []⟩ "r" "notes.txt"
      = ⟨fun _ => none, 0, 0, 0, 0, []⟩ :=
  ⟨c4_unsupported_ignored.1 (fun _ => none) (fun _ => Compress.SaveOutcome.ok [1])
      (fun _ => some [1]) "notes.txt" (by decide),
   c4_unsupported_ignored.2 ⟨fun _ => Except.ok [1], fun _ => some 5, fun _ => some 5, fun _ _ => ""⟩
      "r" none none none "mtime" ⟨fun _ => none, 0, 0, 0, 0, []⟩ "r" "notes.txt" (by decide)⟩

/-- The loop body never touches the skipped counter. -/
theorem procBody_skipped (env : Tinypng.Env) (folder : String) (outF : Option String)
    (ct : Option String) (st : Tinypng.FolderState) (root file : String) :
    (Tinypng.procBody env folder outF ct st root file).skipped = st.skipped := by
  rw [Tinypng.procBody]
  split <;> split <;> rfl

/-- The loop body always counts the file as processed. -/
theorem procBody_total (env : Tinypng.Env) (folder : String) (outF : Option String)
    (ct : Option String) (st : Tinypng.FolderState) (root file : String) :
    (Tinypng.procBody env folder outF ct st root file).total = st.total + 1 := by
  rw [Tinypng.procBody]
  split <;> split <;> rfl

/-! Claim C5. -/

/-- C5 counterexample: with the threshold `since_ts = 0` (for example from
`--after 0`) the truthiness test disables the filter, so a supported file
whose mtime is `-1 < 0` is still compressed instead of being skipped. -/
theorem c5_counterexample :
    (Tinypng.compress_folder
        ⟨fun _ => Except.ok [9], fun _ => some (-1), fun _ => some (-1), fun _ _ => ""⟩
        (fun p => if p = "r/a.png" then some ([0, 0] : Bytes) else none)
        [("r", ["a.png"])] "r" none none (some 0) "mtime" true).invoked = ["r/a.png"] ∧
    ((-1 : Int) < 0) := by
  constructor
  · decide
  · decide

/-- C5 (amended): when a nonzero threshold `since_ts` is given to the folder
walk, a supported file is compressed exactly when its selected time field
(ctime when requested, mtime otherwise) reads at least `since_ts`; a file
whose timestamp reads strictly less, or cannot be read, is counted in the
skipped counter and not compressed.  A threshold equal to zero fails the
truthiness test and disables the filter (see C10). -/
theorem c5_time_filter :
    ∀ (env : Tinypng.Env) (folder : String) (outF ct : Option String) (tau : Int)
      (tf : String) (st : Tinypng.FolderState) (root name : String),
      tau ≠ 0 → Tinypng.hasSupportedFormat name = true →
      (((if tf = "ctime" then env.ctime (joinPath root name)
          else env.mtime (joinPath root name)) = none) →
        Tinypng.procFile env folder outF ct (some tau) tf st root name
          = { st with skipped := st.skipped + 1 }) ∧
      (∀ t, (if tf = "ctime" then env.ctime (joinPath root name)
             else env.mtime (joinPath root name)) = some t →
        (t < tau →
          Tinypng.procFile env folder outF ct (some tau) tf st root name
            = { st with skipped := st.skipped + 1 }) ∧
        (tau ≤ t →
          (Tinypng.procFile env folder outF ct (some tau) tf st root name).invoked
            = st.invoked ++ [joinPath root name] ∧
          (Tinypng.procFile env folder outF ct (some tau) tf st root name).skipped
            = st.skipped ∧
          (Tinypng.procFile env folder outF ct (some tau) tf st root name).total
            = st.total + 1)) := by
  intro env folder outF ct tau tf st root name htau hs
  have htr : tsTruthy (some tau) = true := by
    simp [tsTruthy, htau]
  constructor
  · intro hnone
    rw [Tinypng.procFile, if_pos hs, if_pos htr, hnone]
  · intro t hts
    constructor
    · intro hlt
      rw [Tinypng.procFile, if_pos hs, if_pos htr, hts]
      dsimp only
      rw [Option.getD_some, if_pos hlt]
    · intro hge
      have hnlt : ¬ t < tau := not_lt.mpr hge
      refine ⟨?_, ?_, ?_⟩
      · rw [Tinypng.procFile, if_pos hs, if_pos htr, hts]
        dsimp only
        rw [Option.getD_some, if_neg hnlt, procBody_invoked]
      · rw [Tinypng.procFile, if_pos hs, if_pos htr, hts]
        dsimp only
        rw [Option.getD_some, if_neg hnlt, procBody_skipped]
      · rw [Tinypng.procFile, if_pos hs, if_pos htr, hts]
        dsimp only
        rw [Option.getD_some, if_neg hnlt, procBody_total]

/-- C5 witness: with threshold 10 and mtime 20 the file "r/a.png" is
compressed and not counted skipped. -/
theorem c5_witness :
    (Tinypng.procFile ⟨fun _ => Except.ok [9], fun _ => some 20, fun _ => some 20, fun _ _ => ""⟩
        "r" none none (some 10) "mtime" ⟨fun _ => some [0, 0], 0, 0, 0, 0, []⟩
        "r" "a.png").invoked = [] ++ ["r/a.png"] ∧
    (Tinypng.procFile ⟨fun _ => Except.ok [9], fun _ => some 20, fun _ => some 20, fun _ _ => ""⟩
        "r" none none (some 10) "mtime" ⟨fun _ => some [0, 0], 0, 0, 0, 0, []⟩
        "r" "a.png").skipped = 0 ∧
    (Tinypng.procFile ⟨fun _ => Except.ok [9], fun _ => some 20, fun _ => some 20, fun _ _ => ""⟩
        "r" none none (some 10) "mtime" ⟨fun _ => some [0, 0], 0, 0, 0, 0, []⟩
        "r" "a.png").total = 0 + 1 := by
  have h := ((c5_time_filter
    ⟨fun _ => Except.ok [9], fun _ => some 20, fun _ => some 20, fun _ _ => ""⟩
    "r" none none 10 "mtime" ⟨fun _ => some [0, 0], 0, 0, 0, 0, []⟩
    "r" "a.png" (by decide) (by decide)).2 20 (by decide)).2 (by decide)
  have hj : joinPath "r" "a.png" = "r/a.png" := by decide
  rw [hj] at h
  exact h

/-! Claim C6. -/

/-- C6: the MIME map sends the five types to png/jpg/jpg/webp/avif; on a
successful compression with a mapped conversion type the bytes are written
at the target path with its extension replaced by the mapped one (the given
output path when one is supplied, the input path otherwise), and with an
unmapped conversion type the target path keeps its original extension — in
particular with no output folder the original input path itself is
overwritten. -/
theorem c6_convert_extension :
    (Tinypng.MIME_TO_EXT "image/png" = some "png" ∧
     Tinypng.MIME_TO_EXT "image/jpeg" = some "jpg" ∧
     Tinypng.MIME_TO_EXT "image/jpg" = some "jpg" ∧
     Tinypng.MIME_TO_EXT "image/webp" = some "webp" ∧
     Tinypng.MIME_TO_EXT "image/avif" = some "avif") ∧
    (∀ (bytes orig : Bytes) (fs : FS) (inp op ct e : String),
        fs inp = some orig → ¬ ct = "" → Tinypng.MIME_TO_EXT ct = some e →
        (¬ op = "" →
          (Tinypng.compress_image (Except.ok bytes) fs inp (some op) (some ct)).1
            ((splitext op).1 ++ "." ++ e) = some bytes) ∧
        (Tinypng.compress_image (Except.ok bytes) fs inp none (some ct)).1
          ((splitext inp).1 ++ "." ++ e) = some bytes) ∧
    (∀ (bytes orig : Bytes) (fs : FS) (inp op ct : String),
        fs inp = some orig → ¬ ct = "" → Tinypng.MIME_TO_EXT ct = none →
        (¬ op = "" →
          (Tinypng.compress_image (Except.ok bytes) fs inp (some op) (some ct)).1 op
            = some bytes) ∧
        (Tinypng.compress_image (Except.ok bytes) fs inp none (some ct)).1 inp
          = some bytes) := by
  refine ⟨?_, ?_, ?_⟩
  · exact ⟨rfl, rfl, rfl, rfl, rfl⟩
  · intro bytes orig fs inp op ct e ho hct hm
    constructor
    · intro hop
      rw [tin_ci_ok_out_mapped bytes orig fs inp op ct e ho hop hct hm]
      simp
    · rw [tin_ci_ok_convert_mapped bytes orig fs inp ct e ho hct hm]
      simp
  · intro bytes orig fs inp op ct ho hct hm
    constructor
    · intro hop
      rw [tin_ci_ok_out_unmapped bytes orig fs inp op ct ho hop hct hm]
      simp
    · rw [tin_ci_ok_convert_unmapped bytes orig fs inp ct ho hct hm]
      simp

/-- C6 witness: converting "a.png" to image/webp with output path
"out/b.jpg" writes at "out/b.webp"; an unmapped type keeps the path. -/
theorem c6_witness :
    (Tinypng.compress_image (Except.ok [3])
        (fun q => if q = "a.png" then some ([1, 1] : Bytes) else none)
        "a.png" (some "out/b.jpg") (some "image/webp")).1
      ((splitext "out/b.jpg").1 ++ "." ++ "webp") = some [3] ∧
    (Tinypng.compress_image (Except.ok [3])
        (fun q => if q = "a.png" then some ([1, 1] : Bytes) else none)
        "a.png" none (some "image/gif")).1 "a.png" = some [3] :=
  ⟨((c6_convert_extension.2.1 [3] [1, 1]
      (fun q => if q = "a.png" then some ([1, 1] : Bytes) else none)
      "a.png" "out/b.jpg" "image/webp" "webp" (by decide) (by decide) (by decide)).1
      (by decide)),
   ((c6_convert_extension.2.2 [3] [1, 1]
      (fun q => if q = "a.png" then some ([1, 1] : Bytes) else none)
      "a.png" "unused" "image/gif" (by decide) (by decide) (by decide)).2)⟩


/-! Claim C7. -/

/-- For a non-empty argument `parse_after_arg` runs the chain of parsers. -/
theorem parse_after_nonempty (o : Tinypng.DateOracles) (s : String) (hse : ¬ s = "") :
    Tinypng.parse_after_arg o (some s) =
      (match o.floatParse s with
       | some t => Tinypng.AfterResult.ok t
       | none =>
         match Tinypng.firstSome (Tinypng.fmts.map (fun fmt => o.strptime s fmt)) with
         | some t => Tinypng.AfterResult.ok t
         | none =>
           match o.fromisoformat s with
           | some t => Tinypng.AfterResult.ok t
           | none => Tinypng.AfterResult.valueError) := by
  rw [Tinypng.parse_after_arg]
  have ht : strTruthy (some s) = true := by simp [strTruthy, hse]
  rw [ht]
  rfl

/-- C7: `parse_after_arg` returns `None` exactly for a falsy (absent or
empty) argument; for a non-empty string it returns a timestamp exactly when
`float` accepts the string, or one of the formats `%Y-%m-%d`,
`%Y-%m-%d %H:%M:%S`, `%Y-%m-%dT%H:%M:%S` parses it, or ISO-8601 parsing
accepts it; and it raises `ValueError` exactly when all of those reject. -/
theorem c7_parse_after_cases :
    ∀ (o : Tinypng.DateOracles) (a : Option String),
      (Tinypng.parse_after_arg o a = Tinypng.AfterResult.noneResult ↔
        strTruthy a = false) ∧
      (∀ s, a = some s → ¬ s = "" →
        ((∃ t, Tinypng.parse_after_arg o a = Tinypng.AfterResult.ok t) ↔
          ((o.floatParse s).isSome ∨
           (∃ f, f ∈ ["%Y-%m-%d", "%Y-%m-%d %H:%M:%S", "%Y-%m-%dT%H:%M:%S"] ∧
             (o.strptime s f).isSome) ∨
           (o.fromisoformat s).isSome)) ∧
        (Tinypng.parse_after_arg o a = Tinypng.AfterResult.valueError ↔
          (o.floatParse s = none ∧
           (∀ f, f ∈ ["%Y-%m-%d", "%Y-%m-%d %H:%M:%S", "%Y-%m-%dT%H:%M:%S"] →
             o.strptime s f = none) ∧
           o.fromisoformat s = none))) := by
  intro o a
  constructor
  · cases a with
    | none => simp [Tinypng.parse_after_arg, strTruthy]
    | some s =>
      by_cases hse : s = ""
      · subst hse
        simp [Tinypng.parse_after_arg, strTruthy]
      · rw [parse_after_nonempty o s hse]
        have hf : strTruthy (some s) = true := by simp [strTruthy, hse]
        rw [hf]
        constructor
        · intro h
          exfalso
          revert h
          cases o.floatParse s <;>
            cases Tinypng.firstSome (Tinypng.fmts.map (fun fmt => o.strptime s fmt)) <;>
              cases o.fromisoformat s <;> simp
        · intro h
          simp at h
  · intro s hsa hse
    subst hsa
    rw [parse_after_nonempty o s hse]
    constructor
    · cases hfp : o.floatParse s with
      | some t => simp
      | none =>
        cases h1 : o.strptime s "%Y-%m-%d" with
        | some t1 => simp [Tinypng.fmts, Tinypng.firstSome, h1]
        | none =>
          cases h2 : o.strptime s "%Y-%m-%d %H:%M:%S" with
          | some t2 => simp [Tinypng.fmts, Tinypng.firstSome, h1, h2]
          | none =>
            cases h3 : o.strptime s "%Y-%m-%dT%H:%M:%S" with
            | some t3 => simp [Tinypng.fmts, Tinypng.firstSome, h1, h2, h3]
            | none =>
              cases hi : o.fromisoformat s <;>
                simp [Tinypng.fmts, Tinypng.firstSome, h1, h2, h3]
    · cases hfp : o.floatParse s with
      | some t => simp
      | none =>
        cases h1 : o.strptime s "%Y-%m-%d" with
        | some t1 => simp [Tinypng.fmts, Tinypng.firstSome, h1]
        | none =>
          cases h2 : o.strptime s "%Y-%m-%d %H:%M:%S" with
          | some t2 => simp [Tinypng.fmts, Tinypng.firstSome, h1, h2]
          | none =>
            cases h3 : o.strptime s "%Y-%m-%dT%H:%M:%S" with
            | some t3 => simp [Tinypng.fmts, Tinypng.firstSome, h1, h2, h3]
            | none =>
              cases hi : o.fromisoformat s <;>
                simp [Tinypng.fmts, Tinypng.firstSome, h1, h2, h3]

/-- C7 witness: an oracle that accepts "2025-09-01" only via the first
strptime format makes `parse_after_arg` return a timestamp. -/
theorem c7_witness :
    ∃ t, Tinypng.parse_after_arg
      ⟨fun _ => none,
       fun s f => if s = "2025-09-01" ∧ f = "%Y-%m-%d" then some 100 else none,
       fun _ => none⟩
      (some "2025-09-01") = Tinypng.AfterResult.ok t := by
  apply ((c7_parse_after_cases
    ⟨fun _ => none,
     fun s f => if s = "2025-09-01" ∧ f = "%Y-%m-%d" then some 100 else none,
     fun _ => none⟩
    (some "2025-09-01")).2 "2025-09-01" rfl (by decide)).1.mpr
  refine Or.inr (Or.inl ⟨"%Y-%m-%d", ?_, ?_⟩)
  · simp
  · decide

/-! Claim C8. -/

/-- C8 counterexample: with `--key ""` (a provided but empty key argument)
and the environment variable set, the resolved key is the environment
value, not the provided argument. -/
theorem c8_counterexample :
    Tinypng.resolve_api_key (some "") (some "ENVKEY") = some "ENVKEY" ∧
    ¬ Tinypng.resolve_api_key (some "") (some "ENVKEY") = some "" := by
  constructor
  · decide
  · decide

/-- C8 (amended): `main` resolves the API key as the `--key` argument when
that argument is non-empty, otherwise as the TINIFY_API_KEY environment
value; when the resolution is falsy (both sources missing or empty) it
prints an error and returns before any file is read or compressed, leaving
the filesystem unchanged and invoking nothing. -/
theorem c8_key_resolution :
    (∀ (k : String) (env_key : Option String), ¬ k = "" →
        Tinypng.resolve_api_key (some k) env_key = some k) ∧
    (∀ (env_key : Option String),
        Tinypng.resolve_api_key none env_key = env_key ∧
        Tinypng.resolve_api_key (some "") env_key = env_key) ∧
    (∀ (env_key : Option String) (isFile : String → Bool) (o : Tinypng.DateOracles)
        (resizeOk : String → Bool) (env : Tinypng.Env) (fs : FS)
        (walk : List (String × List String)) (args : Tinypng.Args),
        strTruthy (Tinypng.resolve_api_key args.key env_key) = false →
        Tinypng.main env_key isFile o resizeOk env fs walk args =
          ⟨fs, [], Tinypng.MainOutcome.keyError⟩) := by
  refine ⟨?_, ?_, ?_⟩
  · intro k env_key hk
    rw [Tinypng.resolve_api_key]
    simp [strTruthy, hk]
  · intro env_key
    constructor
    · rfl
    · rw [Tinypng.resolve_api_key]
      simp [strTruthy]
  · intro env_key isFile o resizeOk env fs walk args h
    simp only [Tinypng.main]
    rw [h]
    rfl

/-- C8 witness: with no `--key` and no environment value `main` stops with
the key error and the filesystem is untouched. -/
theorem c8_witness :
    Tinypng.main none (fun _ => true)
      ⟨fun _ => none, fun _ _ => none, fun _ => none⟩ (fun _ => true)
      ⟨fun _ => Except.ok [1], fun _ => some 0, fun _ => some 0, fun _ _ => ""⟩
      (fun _ => some [1]) []
      ⟨"a.png", none, none, none, none, false, none, "mtime"⟩ =
      ⟨(fun _ => some [1] : FS), [], Tinypng.MainOutcome.keyError⟩ :=
  c8_key_resolution.2.2 none (fun _ => true)
    ⟨fun _ => none, fun _ _ => none, fun _ => none⟩ (fun _ => true)
    ⟨fun _ => Except.ok [1], fun _ => some 0, fun _ => some 0, fun _ _ => ""⟩
    (fun _ => some [1]) []
    ⟨"a.png", none, none, none, none, false, none, "mtime"⟩ (by decide)

/-! Claim C9. -/

/-- C9 counterexample: when a file already exists at "a.png.tmp" and
`Image.open` fails, `compress_image` returns before creating or cleaning
any temporary file, so a file at the input path plus ".tmp" does remain on
disk after the call. -/
theorem c9_counterexample :
    (Compress.compress_image none (Compress.SaveOutcome.ok [0])
        (fun q => if q = "a.png.tmp" then some ([7] : Bytes) else none)
        "a.png").1 ("a.png" ++ ".tmp") = some [7] := by
  decide

/-- C9 (amended): whenever `compress_image` gets past the open and GIF
checks (the image opened and its format is not GIF), no file remains at the
input path plus ".tmp" after it returns: the temporary file is moved onto
the original, removed after the size comparison, or removed by the
exception handler.  On the two early returns a pre-existing file at that
path is left as it was. -/
theorem c9_no_tmp_left :
    ∀ (img : Compress.Image) (save : Compress.SaveOutcome) (fs : FS) (p : String),
      ¬ strToUpper img.format = "GIF" →
      (Compress.compress_image (some img) save fs p).1 (p ++ ".tmp") = none := by
  intro img save fs p hg
  cases save with
  | fail w =>
    rw [local_ci_fail img hg w]
    simp
  | ok bytes =>
    cases hfs : fs p with
    | none =>
      rw [local_ci_ok_absent img hg bytes fs p hfs]
      simp
    | some orig =>
      by_cases hlt : bytes.length < orig.length
      · rw [local_ci_ok_smaller img hg bytes orig fs p hfs hlt]
        have hne : ¬ (p ++ ".tmp") = p := fun h => ne_append_tmp p h.symm
        simp [hne]
      · rw [local_ci_ok_keep img hg bytes orig fs p hfs hlt]
        simp

/-- C9 witness: compressing "d.jpg" leaves nothing at "d.jpg.tmp". -/
theorem c9_witness :
    (Compress.compress_image (some ⟨"JPEG", "RGB", []⟩) (Compress.SaveOutcome.ok [0])
        (fun q => if q = "d.jpg" then some ([1, 1] : Bytes) else none)
        "d.jpg").1 ("d.jpg" ++ ".tmp") = none :=
  c9_no_tmp_left ⟨"JPEG", "RGB", []⟩ (Compress.SaveOutcome.ok [0])
    (fun q => if q = "d.jpg" then some ([1, 1] : Bytes) else none) "d.jpg" (by decide)

/-! Claim C10. -/

/-- C10: a threshold equal to zero (for example from `--after 0`) fails the
truthiness test in both places: the directory walk behaves exactly as if no
threshold had been given — so every supported file is attempted regardless
of its times — and the single-file path of `main` compresses the file
whatever the time oracles say. -/
theorem c10_zero_threshold_disables_filter :
    (∀ (env : Tinypng.Env) (fs : FS) (walk : List (String × List String))
        (folder : String) (outF ct : Option String) (tf : String) (rec : Bool),
        Tinypng.compress_folder env fs walk folder outF ct (some 0) tf rec =
        Tinypng.compress_folder env fs walk folder outF ct none tf rec) ∧
    (∀ (env : Tinypng.Env) (folder : String) (outF ct : Option String) (tf : String)
        (st : Tinypng.FolderState) (root name : String),
        Tinypng.hasSupportedFormat name = true →
        (Tinypng.procFile env folder outF ct (some 0) tf st root name).invoked =
          st.invoked ++ [joinPath root name]) ∧
    (∀ (env_key : Option String) (isFile : String → Bool) (o : Tinypng.DateOracles)
        (resizeOk : String → Bool) (env : Tinypng.Env) (fs : FS)
        (walk : List (String × List String)) (args : Tinypng.Args),
        strTruthy (Tinypng.resolve_api_key args.key env_key) = true →
        args.resize = none →
        strTruthy args.after = true →
        Tinypng.parse_after_arg o args.after = Tinypng.AfterResult.ok 0 →
        isFile args.input = true →
        Tinypng.main env_key isFile o resizeOk env fs walk args =
          ⟨(Tinypng.compress_image (env.api args.input) fs args.input
              args.output args.convert).1,
           [args.input],
           Tinypng.MainOutcome.ranSingle
             (Tinypng.compress_image (env.api args.input) fs args.input
               args.output args.convert).2⟩) := by
  refine ⟨?_, ?_, ?_⟩
  · intro env fs walk folder outF ct tf rec
    exact compress_folder_since_zero env fs walk folder outF ct tf rec
  · intro env folder outF ct tf st root name hs
    rw [procFile_since_zero env folder outF ct tf st root name,
      Tinypng.procFile, if_pos hs]
    simp [tsTruthy, procBody_invoked]
  · intro env_key isFile o resizeOk env fs walk args hkey hresize hafter hparse hfile
    simp only [Tinypng.main, hkey, hresize, hafter, hparse, hfile]
    simp [strTruthy, tsTruthy]

/-- C10 witness: with `--after` parsing to zero the single file "f.png" is
compressed even though its mtime reads far in the future. -/
theorem c10_witness :
    (Tinypng.procFile
        ⟨fun _ => Except.ok [9], fun _ => some 999999, fun _ => some 999999, fun _ _ => ""⟩
        "r" none none (some 0) "mtime" ⟨fun _ => some [0, 0], 0, 0, 0, 0, []⟩
        "r" "a.png").invoked = [] ++ [joinPath "r" "a.png"] ∧
    Tinypng.main (some "K") (fun _ => true)
      ⟨fun s => if s = "0" then some 0 else none, fun _ _ => none, fun _ => none⟩
      (fun _ => true)
      ⟨fun _ => Except.ok [9], fun _ => some 999999, fun _ => some 999999, fun _ _ => ""⟩
      (fun p => if p = "f.png" then some ([0, 0] : Bytes) else none) []
      ⟨"f.png", none, none, none, some "K", false, some "0", "mtime"⟩ =
      ⟨(Tinypng.compress_image (Except.ok [9])
          (fun p => if p = "f.png" then some ([0, 0] : Bytes) else none)
          "f.png" none none).1,
       ["f.png"], Tinypng.MainOutcome.ranSingle
         (Tinypng.compress_image (Except.ok [9])
           (fun p => if p = "f.png" then some ([0, 0] : Bytes) else none)
           "f.png" none none).2⟩ :=
  ⟨c10_zero_threshold_disables_filter.2.1
      ⟨fun _ => Except.ok [9], fun _ => some 999999, fun _ => some 999999, fun _ _ => ""⟩
      "r" none none "mtime" ⟨fun _ => some [0, 0], 0, 0, 0, 0, []⟩ "r" "a.png" (by decide),
   c10_zero_threshold_disables_filter.2.2 (some "K") (fun _ => true)
      ⟨fun s => if s = "0" then some 0 else none, fun _ _ => none, fun _ => none⟩
      (fun _ => true)
      ⟨fun _ => Except.ok [9], fun _ => some 999999, fun _ => some 999999, fun _ _ => ""⟩
      (fun p => if p = "f.png" then some ([0, 0] : Bytes) else none) []
      ⟨"f.png", none, none, none, some "K", false, some "0", "mtime"⟩
      (by decide) rfl (by decide) rfl rfl⟩
